import Mathlib

/-!
Shallow embedding of `datadog_logger/handler.py` (springload/datadog-logger).

Python values flowing through the handler are modelled by `PyVal`:
`None`, integers and strings (`PyAtom`) and flat lists of such atoms —
the handler never builds nested lists, so flat lists suffice and keep
every definition computable and decidable.  A log record is its fixed
fields (`name`, `msg`, `levelno`) plus an association list of optional
attributes; exceptions are modelled with `Except PyErr`.
-/

/-- A scalar Python value: `None`, an integer, or a string. -/
inductive PyAtom where
  | none
  | int (n : Int)
  | str (s : String)
deriving DecidableEq, Repr

/-- A dynamically-typed Python value as used by the handler:
a scalar or a list of scalars. -/
inductive PyVal where
  | atom (a : PyAtom)
  | list (xs : List PyAtom)
deriving DecidableEq, Repr

/-- Shorthand for the Python value `None`. -/
def pyNone : PyVal := PyVal.atom PyAtom.none

/-- Shorthand for a Python string value. -/
def pyStr (s : String) : PyVal := PyVal.atom (PyAtom.str s)

/-- Shorthand for a Python int value. -/
def pyInt (n : Int) : PyVal := PyVal.atom (PyAtom.int n)

/-- Shorthand for a Python list of strings. -/
def pyStrs (ss : List String) : PyVal := PyVal.list (ss.map PyAtom.str)

/-- Python exceptions that the handler's code paths can raise. -/
inductive PyErr where
  | attributeError
  | typeError
  | formatError
deriving DecidableEq, Repr

/-- Python truthiness of a scalar. -/
def atomTruthy : PyAtom → Bool
  | PyAtom.none => false
  | PyAtom.int n => n != 0
  | PyAtom.str s => s != ""

/-- Python truthiness `bool(v)`. -/
def pyTruthy : PyVal → Bool
  | PyVal.atom a => atomTruthy a
  | PyVal.list xs => !xs.isEmpty

/-- `isinstance(v, list)`. -/
def pyIsList : PyVal → Bool
  | PyVal.atom _ => false
  | PyVal.list _ => true

/-- The elements of a `PyVal` known to be a list (junk `[]` otherwise). -/
def pyListElems : PyVal → List PyAtom
  | PyVal.atom _ => []
  | PyVal.list xs => xs

/-- `[v]` for a scalar `v` (junk on lists: only applied when
`pyIsList v = false`). -/
def pyWrap : PyVal → List PyAtom
  | PyVal.atom a => [a]
  | PyVal.list xs => xs

/-- The strings of a list of atoms, or `none` if some element is not a
string. -/
def strsOf : List PyAtom → Option (List String)
  | [] => some []
  | PyAtom.str s :: rest => (strsOf rest).map (fun ss => s :: ss)
  | _ :: _ => Option.none

/-- Python `sep.join(v)`: joining a list requires every element to be a
string (else `TypeError`); joining a string iterates its characters;
joining anything else raises `TypeError`. -/
def pyJoin (sep : String) : PyVal → Except PyErr String
  | PyVal.list xs =>
    match strsOf xs with
    | some ss => Except.ok (String.intercalate sep ss)
    | Option.none => Except.error PyErr.typeError
  | PyVal.atom (PyAtom.str s) =>
    Except.ok (String.intercalate sep (s.data.map Char.toString))
  | PyVal.atom _ => Except.error PyErr.typeError

/-- A log record: the always-present fields used by the handler plus an
association list of the record's optional attributes.  An attribute
absent from `attrs` models a missing attribute (direct access raises
`AttributeError`), distinct from an attribute present with value
`None`. -/
structure LogRecord where
  name : String
  msg : String
  levelno : Int
  attrs : List (String × PyVal)
deriving DecidableEq, Repr

/-- First-match lookup in an attribute list. -/
def lookupAttr : List (String × PyVal) → String → Option PyVal
  | [], _ => Option.none
  | (k, v) :: rest, key => if k = key then some v else lookupAttr rest key

/-- Replace the binding of `key`, or append it if absent. -/
def setAttrList : List (String × PyVal) → String → PyVal → List (String × PyVal)
  | [], key, v => [(key, v)]
  | (k, w) :: rest, key, v =>
    if k = key then (k, v) :: rest else (k, w) :: setAttrList rest key v

/-- Attribute lookup on a record (`getattr` without default): the
built-in fields shadow the optional attributes. -/
def LogRecord.getattr (r : LogRecord) (k : String) : Option PyVal :=
  if k = "name" then some (pyStr r.name)
  else if k = "msg" then some (pyStr r.msg)
  else if k = "levelno" then some (pyInt r.levelno)
  else lookupAttr r.attrs k

/-- `getattr(record, k, d)`. -/
def LogRecord.getattrD (r : LogRecord) (k : String) (d : PyVal) : PyVal :=
  (r.getattr k).getD d

/-- Direct attribute access `record.k`: raises `AttributeError` when the
attribute is absent. -/
def LogRecord.getattrEx (r : LogRecord) (k : String) : Except PyErr PyVal :=
  match r.getattr k with
  | some v => Except.ok v
  | Option.none => Except.error PyErr.attributeError

/-- `setattr(record, k, v)` (only used for the optional attributes). -/
def LogRecord.setattr (r : LogRecord) (k : String) (v : PyVal) : LogRecord :=
  { r with attrs := setAttrList r.attrs k v }

/-- `logging.DEBUG` -/
def LOG_DEBUG : Int := 10
/-- `logging.INFO` -/
def LOG_INFO : Int := 20
/-- `logging.WARNING` -/
def LOG_WARNING : Int := 30
/-- `logging.ERROR` -/
def LOG_ERROR : Int := 40
/-- `logging.CRITICAL` -/
def LOG_CRITICAL : Int := 50

/-- The module-level dict `LOG_LEVEL_ALERT_TYPE_MAPPINGS`. -/
def LOG_LEVEL_ALERT_TYPE_MAPPINGS : List (Int × String) :=
  [(LOG_DEBUG, "info"),
   (LOG_INFO, "info"),
   (LOG_WARNING, "warning"),
   (LOG_ERROR, "error"),
   (LOG_CRITICAL, "error")]

/-- Dict lookup `d[k]` returning `none` when `k not in d`. -/
def dictLookup : List (Int × String) → Int → Option String
  | [], _ => Option.none
  | (k, v) :: rest, key => if k = key then some v else dictLookup rest key

/-- The payload dict built by `EventMessage.init` (`self.data`). -/
structure EventData where
  title : PyVal
  text : String
  alert_type : PyVal
  aggregation_key : PyVal
  source_type_name : PyVal
  date_happened : PyVal
  priority : PyVal
  tags : PyVal
  hostname : PyVal
deriving DecidableEq, Repr

/-- The fields set by `GaugeMessage.init`. -/
structure GaugeData where
  metric_name : String
  values : List PyAtom
  tags : PyVal
  sample_rate : PyVal
deriving DecidableEq, Repr

/-- The closed union of messages (subclasses of `AbstractMessage`). -/
inductive Message where
  | event (d : EventData)
  | gauge (g : GaugeData)
deriving DecidableEq, Repr

/-- A message class, as returned by `resolve_message` (the Python code
passes the class object around and calls it). -/
inductive MessageClass where
  | event
  | gauge
deriving DecidableEq, Repr

/-- The upstream text renderer: `logging.Formatter.format` as reached by
`formatter.format(record)` inside `EventMessage.init` (the `formatter`
argument is the `super()` proxy of `BaseDatadogFormatter`).  It is an
external collaborator, so constructors are parameterised over it; it may
itself raise (e.g. on mismatched template arguments). -/
def Render : Type := LogRecord → Except PyErr String

/-- `EventMessage.init(formatter, record)`.  Note the direct accesses:
`record.mentions` raises `AttributeError` when the attribute is absent,
while every other optional field is read with `getattr(..., default)`. -/
def EventMessage.init (render : Render) (r : LogRecord) : Except PyErr EventData := do
  let text0 ← render r
  let mentions ← r.getattrEx "mentions"
  let text ←
    if mentions ≠ pyNone then do
      let joined ← pyJoin " " mentions
      pure (String.intercalate "\n\n" [text0, joined])
    else
      pure text0
  let alert_type :=
    match dictLookup LOG_LEVEL_ALERT_TYPE_MAPPINGS r.levelno with
    | some s => pyStr s
    | Option.none => pyNone
  pure
    { title := r.getattrD "title" (pyStr r.name)
      text := text
      alert_type := alert_type
      aggregation_key := r.getattrD "aggregation_key" pyNone
      source_type_name := r.getattrD "source_type_name" pyNone
      date_happened := r.getattrD "date_happened" pyNone
      priority := r.getattrD "priority" pyNone
      tags := r.getattrD "tags" pyNone
      hostname := r.getattrD "hostname" pyNone }

/-- `GaugeMessage.init(formatter, record)` (the formatter argument is
unused by the source). -/
def GaugeMessage.init (r : LogRecord) : GaugeData :=
  let args := r.getattrD "args" pyNone
  let values :=
    if pyTruthy args && pyIsList args && !(pyListElems args).isEmpty then
      pyListElems args
    else
      [PyAtom.int 0]
  { metric_name := r.msg
    values := values
    tags := r.getattrD "tags" pyNone
    sample_rate := r.getattrD "sample_rate" (pyInt 1) }

/-- The state of a `BaseDatadogFormatter` as set by its `__init__`. -/
structure BaseDatadogFormatter where
  default_message_class : MessageClass
  message_class_keyword : String
  tags : Option (List PyAtom)
  mentions : Option (List PyAtom)
deriving DecidableEq, Repr

/-- `BaseDatadogFormatter.resolve_message`:
`todo = getattr(record, self.message_class_keyword, None)`;
`'event'` picks `EventMessage`, `'gauge'` picks `GaugeMessage`,
anything else falls back to `self.default_message_class`. -/
def BaseDatadogFormatter.resolve_message
    (f : BaseDatadogFormatter) (r : LogRecord) : MessageClass :=
  let todo := r.getattrD f.message_class_keyword pyNone
  if todo = pyStr "event" then MessageClass.event
  else if todo = pyStr "gauge" then MessageClass.gauge
  else f.default_message_class

/-- One branch of `patch_record`, applied identically to `mentions` and
`tags`.  `st` is the non-`None` static list; `v` the record's current
value:
`if record.f and isinstance(record.f, list): record.f += self.f`
`elif record.f: record.f = [record.f] + self.f`
`else: record.f = self.f`. -/
def mergeStatic (st : List PyAtom) (v : PyVal) : PyVal :=
  if pyTruthy v && pyIsList v then
    PyVal.list (pyListElems v ++ st)
  else if pyTruthy v then
    PyVal.list (pyWrap v ++ st)
  else
    PyVal.list st

/-- `BaseDatadogFormatter.patch_record`: when the static `mentions` is
not `None`, read `record.mentions` directly (raising `AttributeError`
when absent) and merge; then do the same for `tags`. -/
def BaseDatadogFormatter.patch_record
    (f : BaseDatadogFormatter) (r : LogRecord) : Except PyErr LogRecord := do
  let r1 ←
    match f.mentions with
    | Option.none => pure r
    | some st => do
      let v ← r.getattrEx "mentions"
      pure (r.setattr "mentions" (mergeStatic st v))
  match f.tags with
  | Option.none => pure r1
  | some st => do
    let v ← r1.getattrEx "tags"
    pure (r1.setattr "tags" (mergeStatic st v))

/-- `message_class(super(BaseDatadogFormatter, self), record)`: calling
the resolved class constructs the corresponding message. -/
def buildMessage (mc : MessageClass) (render : Render) (r : LogRecord) :
    Except PyErr Message :=
  match mc with
  | MessageClass.event => (EventMessage.init render r).map Message.event
  | MessageClass.gauge => Except.ok (Message.gauge (GaugeMessage.init r))

/-- `BaseDatadogFormatter.format`: resolve the message class on the
unpatched record, then patch the record, then construct the message from
the patched record. -/
def BaseDatadogFormatter.format
    (f : BaseDatadogFormatter) (render : Render) (r : LogRecord) :
    Except PyErr Message := do
  let mc := f.resolve_message r
  let r1 ← f.patch_record r
  buildMessage mc render r1

/-- `AbstractDatadogLoggingHandler.__init__`: `kwargs.pop` with defaults
`EventMessage` and `'datadog_todo'`, then construction of the formatter
from `(default_message_class, message_class_keyword, tags, mentions)`.
The `Option` arguments model keyword arguments that may be omitted. -/
def AbstractDatadogLoggingHandler.init
    (tags mentions : Option (List PyAtom))
    (default_message_class : Option MessageClass)
    (message_class_keyword : Option String) : BaseDatadogFormatter :=
  { default_message_class := default_message_class.getD MessageClass.event
    message_class_keyword := message_class_keyword.getD "datadog_todo"
    tags := tags
    mentions := mentions }

/-- The observable outcome of one `emit` call: the message pushed
successfully (if any) and the list of arguments `handleError` was
invoked with. -/
structure EmitResult where
  pushed : Option Message
  handleErrorCalls : List LogRecord
deriving DecidableEq, Repr

/-- `AbstractDatadogLoggingHandler.emit`: `try` formatting and pushing;
the `isinstance(msg, AbstractMessage)` test always holds in the closed
`Message` union, so the `TypeError` branch of the source is
unreachable here; a bare `except:` routes every failure to
`self.handleError(record)`.  `push` abstracts the backend-specific
`push_message`, which may raise (delivery errors). -/
def AbstractDatadogLoggingHandler.emit
    (f : BaseDatadogFormatter) (render : Render)
    (push : Message → Except PyErr Unit) (r : LogRecord) : EmitResult :=
  match BaseDatadogFormatter.format f render r with
  | Except.error _ => { pushed := Option.none, handleErrorCalls := [r] }
  | Except.ok msg =>
    match push msg with
    | Except.error _ => { pushed := Option.none, handleErrorCalls := [r] }
    | Except.ok _ => { pushed := some msg, handleErrorCalls := [] }

/-- One call to the external datadog collaborators. -/
inductive BackendCall where
  | statsd_event (d : EventData)
  | statsd_gauge (metric_name : String) (value : PyAtom)
      (tags : PyVal) (sample_rate : PyVal)
  | api_event_create (d : EventData)
  | api_metric_send (metric : String) (points : List PyAtom)
      (tags : PyVal) (sample_rate : PyVal)
deriving DecidableEq, Repr

/-- `StatsdDatadogLoggingHandler.push_message` as the trace of datadog
calls it performs: one `datadog.statsd.event(**message.data)` for an
event, one `datadog.statsd.gauge(name, value, tags, sample_rate)` per
value for a gauge.  The `raise TypeError('unknown message', ...)` branch
is unreachable in the closed `Message` union. -/
def StatsdDatadogLoggingHandler.push_message : Message → List BackendCall
  | Message.event d => [BackendCall.statsd_event d]
  | Message.gauge g =>
    g.values.map (fun v =>
      BackendCall.statsd_gauge g.metric_name v g.tags g.sample_rate)

/-- `ApiDatadogLoggingHandler.push_message` as the trace of datadog
calls it performs: one `datadog.api.Event.create(**message.data)` for an
event, one `datadog.api.Metric.send(metric=..., points=message.values,
tags=..., sample_rate=...)` carrying the whole values sequence for a
gauge. -/
def ApiDatadogLoggingHandler.push_message : Message → List BackendCall
  | Message.event d => [BackendCall.api_event_create d]
  | Message.gauge g =>
    [BackendCall.api_metric_send g.metric_name g.values g.tags g.sample_rate]

/-- Modelled from the spec (§4.2 step order): the classification
pipeline that applies the static merge to the record *before* reading
the kind-selector attribute, then builds the selected variant from the
merged record.  Compared against `BaseDatadogFormatter.format`, which
resolves the variant on the unpatched record. -/
def formatMergeFirst
    (f : BaseDatadogFormatter) (render : Render) (r : LogRecord) :
    Except PyErr Message := do
  let r1 ← f.patch_record r
  let mc := f.resolve_message r1
  buildMessage mc render r1

/-!
Object-identity model of `patch_record`.

The value-level `patch_record` above abstracts from Python object
identity.  The statements `record.f += self.f` (in-place `list.extend`)
and `record.f = self.f` (binding the record's attribute to the very
list object held by the formatter) are however observable through
aliasing: the formatter's static list is a heap object shared between
the configuration and any record that received it.  The definitions
below re-translate `patch_record` with an explicit heap of list
objects so this sharing is visible.
-/

/-- A runtime value with references: scalars are immediate, lists are
heap objects addressed by `ref`. -/
inductive RVal where
  | none
  | int (n : Int)
  | str (s : String)
  | ref (a : Nat)
deriving DecidableEq, Repr

/-- A heap of Python list objects (address = index; allocation
appends). -/
structure Store where
  heap : List (List RVal)
deriving DecidableEq, Repr

/-- The contents of the list object at address `a`. -/
def Store.read (st : Store) (a : Nat) : List RVal :=
  (st.heap.get? a).getD []

/-- Overwrite the list object at address `a` in place. -/
def Store.write (st : Store) (a : Nat) (xs : List RVal) : Store :=
  { heap := st.heap.set a xs }

/-- Allocate a fresh list object; returns the new store and its
address. -/
def Store.alloc (st : Store) (xs : List RVal) : Store × Nat :=
  ({ heap := st.heap ++ [xs] }, st.heap.length)

/-- Truthiness of an `RVal` under a store (a list object is truthy when
non-empty). -/
def rvalTruthy (st : Store) : RVal → Bool
  | RVal.none => false
  | RVal.int n => n != 0
  | RVal.str s => s != ""
  | RVal.ref a => !(st.read a).isEmpty

/-- `isinstance(v, list)` in the store model: references are the list
objects. -/
def rvalIsList : RVal → Bool
  | RVal.ref _ => true
  | _ => false

/-- A record in the store model: just its attribute bindings (the fixed
fields play no role in `patch_record`). -/
structure StoreRecord where
  attrs : List (String × RVal)
deriving DecidableEq, Repr

/-- First-match lookup of a store-record attribute. -/
def StoreRecord.getattr (r : StoreRecord) (k : String) : Option RVal :=
  List.lookup k r.attrs

/-- Rebind a store-record attribute. -/
def StoreRecord.setattr (r : StoreRecord) (k : String) (v : RVal) : StoreRecord :=
  { attrs := setRAttrList r.attrs k v }
where
  setRAttrList : List (String × RVal) → String → RVal → List (String × RVal)
    | [], key, v => [(key, v)]
    | (k, w) :: rest, key, v =>
      if k = key then (k, v) :: rest else (k, w) :: setRAttrList rest key v

/-- One branch of `patch_record` in the store model, for static value
`staticv` (the formatter's `self.f`: `None` or a reference to its
static list object) and record attribute `key`:
`record.f += self.f` extends the record's list object in place;
`record.f = [record.f] + self.f` allocates a fresh list;
`record.f = self.f` makes the record's attribute an alias of the
formatter's own list object. -/
def patchFieldStore (st : Store) (staticv : RVal) (key : String)
    (r : StoreRecord) : Except PyErr (Store × StoreRecord) :=
  match staticv with
  | RVal.ref sa =>
    match r.getattr key with
    | Option.none => Except.error PyErr.attributeError
    | some v =>
      if rvalTruthy st v && rvalIsList v then
        match v with
        | RVal.ref va => Except.ok (st.write va (st.read va ++ st.read sa), r)
        | _ => Except.ok (st, r)
      else if rvalTruthy st v then
        let (st1, na) := st.alloc ([v] ++ st.read sa)
        Except.ok (st1, r.setattr key (RVal.ref na))
      else
        Except.ok (st, r.setattr key staticv)
  | _ => Except.ok (st, r)

/-- `patch_record` in the store model: the `mentions` branch, then the
`tags` branch. -/
def patchRecordStore (st : Store) (staticMentions staticTags : RVal)
    (r : StoreRecord) : Except PyErr (Store × StoreRecord) := do
  let p1 ← patchFieldStore st staticMentions "mentions" r
  patchFieldStore p1.1 staticTags "tags" p1.2

/-- Two successive `patch_record` calls (as performed by two `emit`
calls) on the same record object, for a handler whose static `tags` is
the list object `["b"]` at address 0, static `mentions` is `None`, and a
record whose `tags` attribute is `None`.  The first call aliases the
handler's static list into the record; the second extends that shared
object in place. -/
def storeAfterTwoPatches : Except PyErr (Store × StoreRecord) := do
  let st0 : Store := { heap := [[RVal.str "b"]] }
  let r0 : StoreRecord := { attrs := [("tags", RVal.none)] }
  let p1 ← patchRecordStore st0 RVal.none (RVal.ref 0) r0
  patchRecordStore p1.1 RVal.none (RVal.ref 0) p1.2

/-- A concrete stand-in for the upstream renderer, used by witnesses:
it renders a record as its raw message.  It ignores `levelno`. -/
def renderMsg : Render := fun r => Except.ok r.msg

/-- `EventMessage.init` with the monadic binds unfolded into explicit
matches (proof helper; `eventInit_eq_explicit` shows it equal to the
translation of the source). -/
def eventInitExplicit (render : Render) (r : LogRecord) : Except PyErr EventData :=
  match render r with
  | Except.error e => Except.error e
  | Except.ok text0 =>
    match r.getattr "mentions" with
    | Option.none => Except.error PyErr.attributeError
    | some mentions =>
      match (if mentions ≠ pyNone then
               match pyJoin " " mentions with
               | Except.error e => Except.error e
               | Except.ok joined =>
                 Except.ok (String.intercalate "\n\n" [text0, joined])
             else Except.ok text0 : Except PyErr String) with
      | Except.error e => Except.error e
      | Except.ok text =>
        Except.ok
          { title := r.getattrD "title" (pyStr r.name)
            text := text
            alert_type :=
              match dictLookup LOG_LEVEL_ALERT_TYPE_MAPPINGS r.levelno with
              | some s => pyStr s
              | Option.none => pyNone
            aggregation_key := r.getattrD "aggregation_key" pyNone
            source_type_name := r.getattrD "source_type_name" pyNone
            date_happened := r.getattrD "date_happened" pyNone
            priority := r.getattrD "priority" pyNone
            tags := r.getattrD "tags" pyNone
            hostname := r.getattrD "hostname" pyNone }

/-- One field pass of `patch_record` (`self.f` is `None`: skip;
otherwise read `record.key` directly and merge): proof helper defined by
cases on the static value, equal to the corresponding half of
`patch_record` (`patch_record_eq_fields`). -/
def patchField : Option (List PyAtom) → String → LogRecord → Except PyErr LogRecord
  | Option.none, _, r => Except.ok r
  | some st, key, r =>
    match r.getattr key with
    | Option.none => Except.error PyErr.attributeError
    | some v => Except.ok (r.setattr key (mergeStatic st v))

/-- Witness data: a handler built with all keyword arguments omitted. -/
def fDefault : BaseDatadogFormatter :=
  AbstractDatadogLoggingHandler.init Option.none Option.none Option.none Option.none

/-- Witness data: a backend push that always succeeds. -/
def pushOk : Message → Except PyErr Unit := fun _ => Except.ok ()

/-- Witness data: a plain record whose `mentions` attribute is `None`. -/
def rBasic : LogRecord :=
  { name := "app", msg := "hello", levelno := 20, attrs := [("mentions", pyNone)] }

/-- The event data the pipeline produces for `rBasic` under the default
configuration and the `renderMsg` renderer. -/
def dBasic : EventData :=
  { title := pyStr "app"
    text := "hello"
    alert_type := pyStr "info"
    aggregation_key := pyNone
    source_type_name := pyNone
    date_happened := pyNone
    priority := pyNone
    tags := pyNone
    hostname := pyNone }

/-- The message the pipeline produces for `rBasic` under the default
configuration and the `renderMsg` renderer. -/
def msgBasic : Message := Message.event dBasic

/-- A formatter with static `tags=["b"]` and no static mentions. -/
def fTagsB : BaseDatadogFormatter :=
  { default_message_class := MessageClass.event
    message_class_keyword := "datadog_todo"
    tags := some [PyAtom.str "b"]
    mentions := Option.none }

/-- A record carrying no optional attributes at all (in particular no
`tags` and no `mentions` attribute). -/
def rBare : LogRecord :=
  { name := "app", msg := "hello", levelno := 20, attrs := [] }

/-- A formatter whose kind-selector attribute is `"tags"` itself, with
static `tags=["x"]`. -/
def fSelectorTags : BaseDatadogFormatter :=
  { default_message_class := MessageClass.event
    message_class_keyword := "tags"
    tags := some [PyAtom.str "x"]
    mentions := Option.none }

/-- A record whose `tags` attribute is the scalar string `"gauge"`. -/
def rScalarGaugeTag : LogRecord :=
  { name := "n", msg := "m", levelno := 20,
    attrs := [("tags", pyStr "gauge"), ("mentions", pyNone)] }

/-- `rBasic` at an out-of-range synthetic severity. -/
def r77 : LogRecord :=
  { name := "app", msg := "hello", levelno := 77, attrs := [("mentions", pyNone)] }

/-- The event data the pipeline produces for `r77`: the alert type is
left `None`. -/
def d77 : EventData :=
  { title := pyStr "app"
    text := "hello"
    alert_type := pyNone
    aggregation_key := pyNone
    source_type_name := pyNone
    date_happened := pyNone
    priority := pyNone
    tags := pyNone
    hostname := pyNone }

/-- A record carrying an explicit `title` attribute. -/
def rTitled : LogRecord :=
  { name := "app", msg := "hello", levelno := 20,
    attrs := [("mentions", pyNone), ("title", pyStr "T")] }

/-- The event data the pipeline produces for `rTitled`. -/
def dTitled : EventData :=
  { title := pyStr "T"
    text := "hello"
    alert_type := pyStr "info"
    aggregation_key := pyNone
    source_type_name := pyNone
    date_happened := pyNone
    priority := pyNone
    tags := pyNone
    hostname := pyNone }

/-- A record whose kind-selector attribute (under the default name
`datadog_todo`) is the string `"gauge"`. -/
def rTodoGauge : LogRecord :=
  { name := "app", msg := "q.depth", levelno := 20,
    attrs := [("datadog_todo", pyStr "gauge"),
              ("args", PyVal.list [PyAtom.int 5, PyAtom.int 7])] }

/-- A record whose `mentions` attribute is the list `["m1", "m2"]`. -/
def rMentions2 : LogRecord :=
  { name := "app", msg := "hello", levelno := 20,
    attrs := [("mentions", pyStrs ["m1", "m2"])] }

/-- The gauge message `BaseDatadogFormatter.format` (source order:
resolve, then patch, then build) produces for `rScalarGaugeTag` under
`fSelectorTags`. -/
def gaugeSelectorTags : GaugeData :=
  { metric_name := "m"
    values := [PyAtom.int 0]
    tags := PyVal.list [PyAtom.str "gauge", PyAtom.str "x"]
    sample_rate := pyInt 1 }

/-- The event message the merge-first pipeline (`formatMergeFirst`)
produces for `rScalarGaugeTag` under `fSelectorTags`. -/
def eventSelectorTags : EventData :=
  { title := pyStr "n"
    text := "m"
    alert_type := pyStr "info"
    aggregation_key := pyNone
    source_type_name := pyNone
    date_happened := pyNone
    priority := pyNone
    tags := PyVal.list [PyAtom.str "gauge", PyAtom.str "x"]
    hostname := pyNone }

lemma lookupAttr_setAttrList_self (l : List (String × PyVal)) (k : String) (v : PyVal) :
    lookupAttr (setAttrList l k v) k = some v := by
  induction l with
  | nil => simp [setAttrList, lookupAttr]
  | cons hd tl ih =>
    obtain ⟨k0, w⟩ := hd
    by_cases h : k0 = k <;> simp [setAttrList, lookupAttr, h, ih]

lemma lookupAttr_setAttrList_ne (l : List (String × PyVal)) (k k1 : String) (v : PyVal)
    (h : k ≠ k1) : lookupAttr (setAttrList l k v) k1 = lookupAttr l k1 := by
  induction l with
  | nil => simp [setAttrList, lookupAttr, h]
  | cons hd tl ih =>
    obtain ⟨k0, w⟩ := hd
    by_cases h0 : k0 = k
    · subst h0
      simp [setAttrList, lookupAttr, h]
    · simp [setAttrList, lookupAttr, h0, ih]

lemma getattr_setattr_self (r : LogRecord) (k : String) (v : PyVal)
    (h1 : k ≠ "name") (h2 : k ≠ "msg") (h3 : k ≠ "levelno") :
    (r.setattr k v).getattr k = some v := by
  simp [LogRecord.setattr, LogRecord.getattr, h1, h2, h3, lookupAttr_setAttrList_self]

lemma getattr_setattr_ne (r : LogRecord) (k k1 : String) (v : PyVal) (h : k ≠ k1) :
    (r.setattr k v).getattr k1 = r.getattr k1 := by
  unfold LogRecord.setattr LogRecord.getattr
  by_cases h1 : k1 = "name"
  · simp [h1]
  · by_cases h2 : k1 = "msg"
    · simp [h1, h2]
    · by_cases h3 : k1 = "levelno"
      · simp [h1, h2, h3]
      · simp [h1, h2, h3, lookupAttr_setAttrList_ne _ _ _ _ h]

lemma setattr_name (r : LogRecord) (k : String) (v : PyVal) :
    (r.setattr k v).name = r.name := rfl

lemma setattr_msg (r : LogRecord) (k : String) (v : PyVal) :
    (r.setattr k v).msg = r.msg := rfl

lemma setattr_levelno (r : LogRecord) (k : String) (v : PyVal) :
    (r.setattr k v).levelno = r.levelno := rfl

lemma eventInit_eq_explicit (render : Render) (r : LogRecord) :
    EventMessage.init render r = eventInitExplicit render r := by
  unfold EventMessage.init eventInitExplicit LogRecord.getattrEx
  cases hr : render r with
  | error e => rfl
  | ok text0 =>
    cases hm : r.getattr "mentions" with
    | none => rfl
    | some mentions =>
      by_cases hne : mentions = pyNone
      · simp [hne, Bind.bind, Except.bind, pure, Except.pure]
      · simp only [hne, Bind.bind, Except.bind, ne_eq, not_false_iff, if_true, if_pos]
        cases hj : pyJoin " " mentions with
        | error e => simp [hne]
        | ok joined => simp [hne, pure, Except.pure]

lemma mergeStatic_nonempty_list (st xs : List PyAtom) (h : xs ≠ []) :
    mergeStatic st (PyVal.list xs) = PyVal.list (xs ++ st) := by
  cases xs with
  | nil => exact absurd rfl h
  | cons a as => simp [mergeStatic, pyTruthy, pyIsList, pyListElems]

lemma mergeStatic_truthy_scalar (st : List PyAtom) (v : PyVal)
    (ht : pyTruthy v = true) (hl : pyIsList v = false) :
    mergeStatic st v = PyVal.list (pyWrap v ++ st) := by
  simp [mergeStatic, ht, hl]

lemma mergeStatic_falsy (st : List PyAtom) (v : PyVal) (h : pyTruthy v = false) :
    mergeStatic st v = PyVal.list st := by
  simp [mergeStatic, h]

lemma eventInit_ok_fields (render : Render) (r : LogRecord) (d : EventData)
    (h : EventMessage.init render r = Except.ok d) :
    d.title = r.getattrD "title" (pyStr r.name)
    ∧ d.alert_type =
        (match dictLookup LOG_LEVEL_ALERT_TYPE_MAPPINGS r.levelno with
         | some s => pyStr s
         | Option.none => pyNone)
    ∧ d.tags = r.getattrD "tags" pyNone := by
  rw [eventInit_eq_explicit] at h
  unfold eventInitExplicit at h
  repeat' split at h
  all_goals first
    | (cases h; exact ⟨rfl, rfl, rfl⟩)
    | cases h


lemma patch_record_eq_fields (f : BaseDatadogFormatter) (r : LogRecord) :
    f.patch_record r =
      (match patchField f.mentions "mentions" r with
       | Except.error e => Except.error e
       | Except.ok r1 => patchField f.tags "tags" r1) := by
  unfold BaseDatadogFormatter.patch_record LogRecord.getattrEx
  cases f.mentions with
  | none =>
    cases f.tags with
    | none => simp [patchField, Bind.bind, Except.bind, Pure.pure, Except.pure]
    | some st =>
      cases hg : r.getattr "tags" with
      | none => simp [patchField, Bind.bind, Except.bind, Pure.pure, Except.pure, hg]
      | some v => simp [patchField, Bind.bind, Except.bind, Pure.pure, Except.pure, hg]
  | some stm =>
    cases hgm : r.getattr "mentions" with
    | none => simp [patchField, Bind.bind, Except.bind, Pure.pure, Except.pure, hgm]
    | some vm =>
      cases f.tags with
      | none => simp [patchField, Bind.bind, Except.bind, Pure.pure, Except.pure, hgm]
      | some st =>
        cases hg : (r.setattr "mentions" (mergeStatic stm vm)).getattr "tags" with
        | none =>
          simp [patchField, Bind.bind, Except.bind, Pure.pure, Except.pure, hgm, hg]
        | some v =>
          simp [patchField, Bind.bind, Except.bind, Pure.pure, Except.pure, hgm, hg]

lemma patchField_some_ok (st : List PyAtom) (key : String) (r r1 : LogRecord)
    (h : patchField (some st) key r = Except.ok r1) :
    ∃ v, r.getattr key = some v ∧ r1 = r.setattr key (mergeStatic st v) := by
  revert h
  simp only [patchField]
  cases hg : r.getattr key with
  | none => intro h; exact Except.noConfusion h
  | some v => intro h; exact ⟨v, rfl, (Except.ok.inj h).symm⟩

lemma patchField_some_absent (st : List PyAtom) (key : String) (r : LogRecord)
    (h : r.getattr key = Option.none) :
    patchField (some st) key r = Except.error PyErr.attributeError := by
  simp only [patchField, h]

lemma patch_ok_master (f : BaseDatadogFormatter) (r r1 : LogRecord)
    (h : f.patch_record r = Except.ok r1) :
    (∀ k, k ≠ "mentions" → k ≠ "tags" → r1.getattr k = r.getattr k)
    ∧ r1.name = r.name ∧ r1.msg = r.msg ∧ r1.levelno = r.levelno
    ∧ (∀ st, f.tags = some st → ∃ v, r.getattr "tags" = some v
        ∧ r1.getattr "tags" = some (mergeStatic st v))
    ∧ (f.tags = Option.none → r1.getattr "tags" = r.getattr "tags")
    ∧ (∀ st, f.mentions = some st → ∃ v, r.getattr "mentions" = some v
        ∧ r1.getattr "mentions" = some (mergeStatic st v))
    ∧ (f.mentions = Option.none → r1.getattr "mentions" = r.getattr "mentions") := by
  rw [patch_record_eq_fields] at h
  cases hm : patchField f.mentions "mentions" r with
  | error e => rw [hm] at h; exact Except.noConfusion h
  | ok rmid =>
    rw [hm] at h
    have ht : patchField f.tags "tags" rmid = Except.ok r1 := h
    cases hfm : f.mentions with
    | none =>
      rw [hfm] at hm
      have hr : rmid = r := (Except.ok.inj hm).symm
      subst hr
      cases hft : f.tags with
      | none =>
        rw [hft] at ht
        have hr1 : r1 = rmid := (Except.ok.inj ht).symm
        subst hr1
        exact ⟨fun k h1 h2 => rfl, rfl, rfl, rfl,
          fun st hst => Option.noConfusion hst, fun _ => rfl,
          fun st hst => Option.noConfusion hst, fun _ => rfl⟩
      | some st =>
        rw [hft] at ht
        obtain ⟨v, hv, hr1⟩ := patchField_some_ok st "tags" rmid r1 ht
        subst hr1
        refine ⟨?_, rfl, rfl, rfl, ?_, ?_, ?_, ?_⟩
        · intro k h1 h2
          exact getattr_setattr_ne rmid "tags" k _ (Ne.symm h2)
        · intro st2 hst2
          obtain rfl : st = st2 := Option.some.inj hst2
          exact ⟨v, hv,
            getattr_setattr_self rmid "tags" _ (by decide) (by decide) (by decide)⟩
        · intro hn; exact Option.noConfusion hn
        · intro st2 hst2; exact Option.noConfusion hst2
        · intro _
          exact getattr_setattr_ne rmid "tags" "mentions" _ (by decide)
    | some stm =>
      rw [hfm] at hm
      obtain ⟨vm, hvm, hrm⟩ := patchField_some_ok stm "mentions" r rmid hm
      subst hrm
      cases hft : f.tags with
      | none =>
        rw [hft] at ht
        have hr1 : r1 = r.setattr "mentions" (mergeStatic stm vm) :=
          (Except.ok.inj ht).symm
        subst hr1
        refine ⟨?_, rfl, rfl, rfl, ?_, ?_, ?_, ?_⟩
        · intro k h1 h2
          exact getattr_setattr_ne r "mentions" k _ (Ne.symm h1)
        · intro st2 hst2; exact Option.noConfusion hst2
        · intro _
          exact getattr_setattr_ne r "mentions" "tags" _ (by decide)
        · intro st2 hst2
          obtain rfl : stm = st2 := Option.some.inj hst2
          exact ⟨vm, hvm,
            getattr_setattr_self r "mentions" _ (by decide) (by decide) (by decide)⟩
        · intro hn; exact Option.noConfusion hn
      | some st =>
        rw [hft] at ht
        obtain ⟨v, hv, hr1⟩ := patchField_some_ok st "tags" _ r1 ht
        subst hr1
        have hvr : r.getattr "tags" = some v := by
          rw [← getattr_setattr_ne r "mentions" "tags" (mergeStatic stm vm) (by decide)]
          exact hv
        refine ⟨?_, rfl, rfl, rfl, ?_, ?_, ?_, ?_⟩
        · intro k h1 h2
          rw [getattr_setattr_ne _ "tags" k _ (Ne.symm h2)]
          exact getattr_setattr_ne r "mentions" k _ (Ne.symm h1)
        · intro st2 hst2
          obtain rfl : st = st2 := Option.some.inj hst2
          exact ⟨v, hvr,
            getattr_setattr_self _ "tags" _ (by decide) (by decide) (by decide)⟩
        · intro hn; exact Option.noConfusion hn
        · intro st2 hst2
          obtain rfl : stm = st2 := Option.some.inj hst2
          refine ⟨vm, hvm, ?_⟩
          rw [getattr_setattr_ne _ "tags" "mentions" _ (by decide)]
          exact getattr_setattr_self r "mentions" _ (by decide) (by decide) (by decide)
        · intro hn; exact Option.noConfusion hn

/-- Claim C7: pushing a GaugeMessage with values `[1,2,3]` makes the
stateless statsd backend perform exactly three independent gauge calls,
one per value in sequence order, each carrying the metric name, that
value, the tags and the sample rate, while the synchronous API backend
performs exactly one metric-send call carrying the whole three-element
values sequence as points together with tags and sample rate. -/
theorem gauge_batching_statsd_vs_api (name : String) (tags sample_rate : PyVal) :
    StatsdDatadogLoggingHandler.push_message
        (Message.gauge
          { metric_name := name,
            values := [PyAtom.int 1, PyAtom.int 2, PyAtom.int 3],
            tags := tags, sample_rate := sample_rate })
      = [BackendCall.statsd_gauge name (PyAtom.int 1) tags sample_rate,
         BackendCall.statsd_gauge name (PyAtom.int 2) tags sample_rate,
         BackendCall.statsd_gauge name (PyAtom.int 3) tags sample_rate]
    ∧ ApiDatadogLoggingHandler.push_message
        (Message.gauge
          { metric_name := name,
            values := [PyAtom.int 1, PyAtom.int 2, PyAtom.int 3],
            tags := tags, sample_rate := sample_rate })
      = [BackendCall.api_metric_send name
          [PyAtom.int 1, PyAtom.int 2, PyAtom.int 3] tags sample_rate] :=
  ⟨rfl, rfl⟩

/-- Witness for C7 at a concrete metric name, tags and sample rate. -/
theorem gauge_batching_statsd_vs_api_witness :
    StatsdDatadogLoggingHandler.push_message
        (Message.gauge
          { metric_name := "q",
            values := [PyAtom.int 1, PyAtom.int 2, PyAtom.int 3],
            tags := pyNone, sample_rate := pyInt 1 })
      = [BackendCall.statsd_gauge "q" (PyAtom.int 1) pyNone (pyInt 1),
         BackendCall.statsd_gauge "q" (PyAtom.int 2) pyNone (pyInt 1),
         BackendCall.statsd_gauge "q" (PyAtom.int 3) pyNone (pyInt 1)] :=
  (gauge_batching_statsd_vs_api "q" pyNone (pyInt 1)).1

/-- Claim C5: for every record classified as Gauge, the GaugeMessage has
metric name equal to the record's message verbatim, sample rate equal to
the record's sample-rate attribute or 1 when absent, tags equal to the
record's tags or null when absent, values equal to the positional
arguments whenever those form a non-empty list, and `[0]` whenever the
arguments are absent, not a non-empty list, or empty. -/
theorem gauge_message_fields (r : LogRecord) :
    (GaugeMessage.init r).metric_name = r.msg
    ∧ (GaugeMessage.init r).tags = r.getattrD "tags" pyNone
    ∧ (GaugeMessage.init r).sample_rate = r.getattrD "sample_rate" (pyInt 1)
    ∧ (∀ xs, r.getattrD "args" pyNone = PyVal.list xs → xs ≠ [] →
        (GaugeMessage.init r).values = xs)
    ∧ (∀ v, r.getattrD "args" pyNone = v →
        pyIsList v = false ∨ pyListElems v = [] →
        (GaugeMessage.init r).values = [PyAtom.int 0]) := by
  refine ⟨rfl, rfl, rfl, ?_, ?_⟩
  · intro xs hx hne
    simp only [GaugeMessage.init, hx]
    cases xs with
    | nil => exact absurd rfl hne
    | cons a as => simp [pyTruthy, pyIsList, pyListElems]
  · intro v hv hcase
    simp only [GaugeMessage.init, hv]
    rcases hcase with hc | hc
    · cases v with
      | atom a => simp [pyIsList]
      | list xs => simp [pyIsList] at hc
    · cases v with
      | atom a => simp [pyIsList]
      | list xs =>
        have hxs : xs = [] := by simpa [pyListElems] using hc
        subst hxs
        simp [pyTruthy]

/-- Witness for C5: `q.depth` with args `[5,7]` yields values `[5,7]`;
a record with no args yields values `[0]`. -/
theorem gauge_message_fields_witness :
    (GaugeMessage.init rTodoGauge).values = [PyAtom.int 5, PyAtom.int 7]
    ∧ (GaugeMessage.init rBare).values = [PyAtom.int 0]
    ∧ (GaugeMessage.init rTodoGauge).metric_name = "q.depth" := by
  refine ⟨?_, ?_, ?_⟩
  · exact (gauge_message_fields rTodoGauge).2.2.2.1
      [PyAtom.int 5, PyAtom.int 7] rfl (by decide)
  · exact (gauge_message_fields rBare).2.2.2.2 pyNone rfl (Or.inl rfl)
  · exact (gauge_message_fields rTodoGauge).1

/-- Claim C3: variant selection reads the kind-selector attribute:
`"event"` picks EventMessage, `"gauge"` picks GaugeMessage, anything
else falls back to the handler's configured default variant; the
selector attribute name defaults to `"datadog_todo"` and the default
variant defaults to EventMessage. -/
theorem variant_selection (f : BaseDatadogFormatter) (r : LogRecord) :
    (r.getattrD f.message_class_keyword pyNone = pyStr "event" →
      f.resolve_message r = MessageClass.event)
    ∧ (r.getattrD f.message_class_keyword pyNone = pyStr "gauge" →
      f.resolve_message r = MessageClass.gauge)
    ∧ (r.getattrD f.message_class_keyword pyNone ≠ pyStr "event" →
       r.getattrD f.message_class_keyword pyNone ≠ pyStr "gauge" →
      f.resolve_message r = f.default_message_class)
    ∧ (∀ tags mentions,
        AbstractDatadogLoggingHandler.init tags mentions Option.none Option.none
          = { default_message_class := MessageClass.event
              message_class_keyword := "datadog_todo"
              tags := tags
              mentions := mentions }) := by
  refine ⟨?_, ?_, ?_, fun tags mentions => rfl⟩
  · intro h
    simp [BaseDatadogFormatter.resolve_message, h]
  · intro h
    simp [BaseDatadogFormatter.resolve_message, h, pyStr]
  · intro h1 h2
    simp [BaseDatadogFormatter.resolve_message, h1, h2]

/-- Witness for C3: a `"gauge"` selector value picks GaugeMessage; an
absent selector attribute picks the default (EventMessage). -/
theorem variant_selection_witness :
    fDefault.resolve_message rTodoGauge = MessageClass.gauge
    ∧ fDefault.resolve_message rBasic = MessageClass.event := by
  constructor
  · exact (variant_selection fDefault rTodoGauge).2.1 rfl
  · exact (variant_selection fDefault rBasic).2.2.1 (by decide) (by decide)

lemma emit_eq_format_error (f : BaseDatadogFormatter) (render : Render)
    (push : Message → Except PyErr Unit) (r : LogRecord) (e : PyErr)
    (hf : BaseDatadogFormatter.format f render r = Except.error e) :
    AbstractDatadogLoggingHandler.emit f render push r
      = { pushed := Option.none, handleErrorCalls := [r] } := by
  unfold AbstractDatadogLoggingHandler.emit
  rw [hf]

lemma emit_eq_push_error (f : BaseDatadogFormatter) (render : Render)
    (push : Message → Except PyErr Unit) (r : LogRecord) (msg : Message) (e : PyErr)
    (hf : BaseDatadogFormatter.format f render r = Except.ok msg)
    (hp : push msg = Except.error e) :
    AbstractDatadogLoggingHandler.emit f render push r
      = { pushed := Option.none, handleErrorCalls := [r] } := by
  unfold AbstractDatadogLoggingHandler.emit
  rw [hf]
  show (match push msg with
        | Except.error _ =>
          ({ pushed := Option.none, handleErrorCalls := [r] } : EmitResult)
        | Except.ok _ => { pushed := some msg, handleErrorCalls := [] }) = _
  rw [hp]

lemma emit_eq_push_ok (f : BaseDatadogFormatter) (render : Render)
    (push : Message → Except PyErr Unit) (r : LogRecord) (msg : Message)
    (hf : BaseDatadogFormatter.format f render r = Except.ok msg)
    (hp : push msg = Except.ok ()) :
    AbstractDatadogLoggingHandler.emit f render push r
      = { pushed := some msg, handleErrorCalls := [] } := by
  unfold AbstractDatadogLoggingHandler.emit
  rw [hf]
  show (match push msg with
        | Except.error _ =>
          ({ pushed := Option.none, handleErrorCalls := [r] } : EmitResult)
        | Except.ok _ => { pushed := some msg, handleErrorCalls := [] }) = _
  rw [hp]

/-- Claim C1: `emit` returns normally for every record; any failure in
formatting, message construction or push is caught at the single emit
boundary, and `handleError` is invoked exactly once with the original
record per failed emit call and not at all when emit succeeds. -/
theorem emit_total_reports_once (f : BaseDatadogFormatter) (render : Render)
    (push : Message → Except PyErr Unit) (r : LogRecord) :
    ((AbstractDatadogLoggingHandler.emit f render push r).handleErrorCalls = []
      ∨ (AbstractDatadogLoggingHandler.emit f render push r).handleErrorCalls = [r])
    ∧ ((AbstractDatadogLoggingHandler.emit f render push r).handleErrorCalls = []
        ↔ (∃ m, BaseDatadogFormatter.format f render r = Except.ok m
             ∧ push m = Except.ok ()))
    ∧ (∀ m, (AbstractDatadogLoggingHandler.emit f render push r).pushed = some m →
        BaseDatadogFormatter.format f render r = Except.ok m
          ∧ push m = Except.ok ()) := by
  cases hf : BaseDatadogFormatter.format f render r with
  | error e =>
    rw [emit_eq_format_error f render push r e hf]
    refine ⟨Or.inr rfl, ?_, ?_⟩
    · constructor
      · intro hc
        have hc2 : [r] = ([] : List LogRecord) := hc
        exact absurd hc2 (List.cons_ne_nil r [])
      · rintro ⟨m, hm, _⟩
        exact Except.noConfusion hm
    · intro m hm
      have hm2 : (Option.none : Option Message) = some m := hm
      exact Option.noConfusion hm2
  | ok msg =>
    cases hp : push msg with
    | error e =>
      rw [emit_eq_push_error f render push r msg e hf hp]
      refine ⟨Or.inr rfl, ?_, ?_⟩
      · constructor
        · intro hc
          have hc2 : [r] = ([] : List LogRecord) := hc
          exact absurd hc2 (List.cons_ne_nil r [])
        · rintro ⟨m, hm, hpm⟩
          obtain rfl : msg = m := Except.ok.inj hm
          rw [hp] at hpm
          exact Except.noConfusion hpm
      · intro m hm
        have hm2 : (Option.none : Option Message) = some m := hm
        exact Option.noConfusion hm2
    | ok u =>
      cases u
      rw [emit_eq_push_ok f render push r msg hf hp]
      refine ⟨Or.inl rfl, ?_, ?_⟩
      · exact iff_of_true rfl ⟨msg, rfl, hp⟩
      · intro m hm
        have hm2 : some msg = some m := hm
        obtain rfl : msg = m := Option.some.inj hm2
        exact ⟨rfl, hp⟩

/-- Witness for C1: a successful emit pushed exactly the formatted
message and made no `handleError` call. -/
theorem emit_total_reports_once_witness :
    BaseDatadogFormatter.format fDefault renderMsg rBasic = Except.ok msgBasic
    ∧ pushOk msgBasic = Except.ok () :=
  (emit_total_reports_once fDefault renderMsg pushOk rBasic).2.2 msgBasic rfl

/-- Claim C10: when a record has no title attribute the EventMessage's
title equals the record's logical name; an explicit title attribute is
used instead. -/
theorem event_title_default_or_explicit (render : Render) (r : LogRecord)
    (d : EventData) (h : EventMessage.init render r = Except.ok d) :
    (r.getattr "title" = Option.none → d.title = pyStr r.name)
    ∧ (∀ v, r.getattr "title" = some v → d.title = v) := by
  have ht := (eventInit_ok_fields render r d h).1
  constructor
  · intro h0
    rw [ht]
    unfold LogRecord.getattrD
    rw [h0]
    rfl
  · intro v hv
    rw [ht]
    unfold LogRecord.getattrD
    rw [hv]
    rfl

/-- Witness for C10 at a record without a title and one with
`title="T"`. -/
theorem event_title_default_or_explicit_witness :
    dBasic.title = pyStr rBasic.name ∧ dTitled.title = pyStr "T" := by
  constructor
  · exact (event_title_default_or_explicit renderMsg rBasic dBasic rfl).1 rfl
  · exact (event_title_default_or_explicit renderMsg rTitled dTitled rfl).2
      (pyStr "T") rfl

lemma eventInit_isOk_eq (render : Render) (r : LogRecord) :
    (EventMessage.init render r).isOk =
      (match render r with
       | Except.error _ => false
       | Except.ok _ =>
         match r.getattr "mentions" with
         | Option.none => false
         | some mv =>
           if mv ≠ pyNone then
             match pyJoin " " mv with
             | Except.error _ => false
             | Except.ok _ => true
           else true) := by
  rw [eventInit_eq_explicit]
  unfold eventInitExplicit
  repeat' split
  all_goals first | rfl | simp_all

/-- Claim C2: the severity-to-alert-type mapping is total over all
severities: DEBUG and INFO yield "info", WARNING yields "warning",
ERROR and CRITICAL yield "error", and for any severity outside these
five the EventMessage's alert type is left None and no error is
raised (success of the construction does not depend on the
severity). -/
theorem alert_type_total (lvl : Int) :
    dictLookup LOG_LEVEL_ALERT_TYPE_MAPPINGS lvl =
      (if lvl = LOG_DEBUG ∨ lvl = LOG_INFO then some "info"
       else if lvl = LOG_WARNING then some "warning"
       else if lvl = LOG_ERROR ∨ lvl = LOG_CRITICAL then some "error"
       else Option.none)
    ∧ (∀ (render : Render) (r : LogRecord) (d : EventData), r.levelno = lvl →
        EventMessage.init render r = Except.ok d →
        d.alert_type =
          (match dictLookup LOG_LEVEL_ALERT_TYPE_MAPPINGS lvl with
           | some s => pyStr s
           | Option.none => pyNone))
    ∧ (∀ (render : Render) (r : LogRecord),
        (∀ a b, render { a with levelno := b } = render a) →
        (EventMessage.init render { r with levelno := lvl }).isOk
          = (EventMessage.init render { r with levelno := LOG_INFO }).isOk) := by
  refine ⟨?_, ?_, ?_⟩
  · by_cases h10 : lvl = 10
    · subst h10; decide
    · by_cases h20 : lvl = 20
      · subst h20; decide
      · by_cases h30 : lvl = 30
        · subst h30; decide
        · by_cases h40 : lvl = 40
          · subst h40; decide
          · by_cases h50 : lvl = 50
            · subst h50; decide
            · have e1 : dictLookup LOG_LEVEL_ALERT_TYPE_MAPPINGS lvl
                  = Option.none := by
                simp only [LOG_LEVEL_ALERT_TYPE_MAPPINGS, dictLookup,
                  LOG_DEBUG, LOG_INFO, LOG_WARNING, LOG_ERROR, LOG_CRITICAL]
                rw [if_neg (fun h => h10 h.symm), if_neg (fun h => h20 h.symm),
                  if_neg (fun h => h30 h.symm), if_neg (fun h => h40 h.symm),
                  if_neg (fun h => h50 h.symm)]
              rw [e1]
              simp [LOG_DEBUG, LOG_INFO, LOG_WARNING, LOG_ERROR, LOG_CRITICAL,
                h10, h20, h30, h40, h50]
  · intro render r d hlvl hinit
    have h := (eventInit_ok_fields render r d hinit).2.1
    rw [hlvl] at h
    exact h
  · intro render r hrender
    rw [eventInit_isOk_eq, eventInit_isOk_eq]
    rw [hrender r lvl, hrender r LOG_INFO]
    rfl

/-- Witness for C2: at the synthetic severity 77 the alert type is None
and construction still succeeds exactly as at INFO. -/
theorem alert_type_total_witness :
    d77.alert_type = pyNone
    ∧ (EventMessage.init renderMsg { rBasic with levelno := 77 }).isOk
        = (EventMessage.init renderMsg { rBasic with levelno := LOG_INFO }).isOk := by
  constructor
  · exact (alert_type_total 77).2.1 renderMsg r77 d77 rfl rfl
  · exact (alert_type_total 77).2.2 renderMsg rBasic (fun a b => rfl)

/-- Claim C4 (amended): for a successful merge, the rule applies
identically and independently to tags and mentions: a truthy (non-empty)
record list gets the static sequence appended after it; a truthy scalar
is wrapped in a one-element list and the static sequence appended; a
falsy record value (None, empty string, 0, empty list) is replaced by
the static sequence; an absent static value leaves the record field
unchanged.  When the static value is present but the record attribute is
absent entirely, the merge raises AttributeError instead. -/
theorem patch_merge_rule (f : BaseDatadogFormatter) (r r1 : LogRecord) :
    (f.patch_record r = Except.ok r1 →
      ((∀ st, f.tags = some st →
        ((∀ xs, r.getattr "tags" = some (PyVal.list xs) → xs ≠ [] →
            r1.getattr "tags" = some (PyVal.list (xs ++ st)))
         ∧ (∀ v, r.getattr "tags" = some v → pyTruthy v = true →
              pyIsList v = false →
            r1.getattr "tags" = some (PyVal.list (pyWrap v ++ st)))
         ∧ (∀ v, r.getattr "tags" = some v → pyTruthy v = false →
            r1.getattr "tags" = some (PyVal.list st))))
      ∧ (f.tags = Option.none → r1.getattr "tags" = r.getattr "tags")
      ∧ (∀ st, f.mentions = some st →
        ((∀ xs, r.getattr "mentions" = some (PyVal.list xs) → xs ≠ [] →
            r1.getattr "mentions" = some (PyVal.list (xs ++ st)))
         ∧ (∀ v, r.getattr "mentions" = some v → pyTruthy v = true →
              pyIsList v = false →
            r1.getattr "mentions" = some (PyVal.list (pyWrap v ++ st)))
         ∧ (∀ v, r.getattr "mentions" = some v → pyTruthy v = false →
            r1.getattr "mentions" = some (PyVal.list st))))
      ∧ (f.mentions = Option.none →
          r1.getattr "mentions" = r.getattr "mentions")))
    ∧ (∀ st, f.mentions = Option.none → f.tags = some st →
        r.getattr "tags" = Option.none →
        f.patch_record r = Except.error PyErr.attributeError)
    ∧ (∀ st, f.mentions = some st → r.getattr "mentions" = Option.none →
        f.patch_record r = Except.error PyErr.attributeError) := by
  refine ⟨?_, ?_, ?_⟩
  · intro h
    obtain ⟨hother, hn, hmsg, hlvl, htags, htagsn, hment, hmentn⟩ :=
      patch_ok_master f r r1 h
    refine ⟨?_, htagsn, ?_, hmentn⟩
    · intro st hst
      obtain ⟨v, hv, hv1⟩ := htags st hst
      refine ⟨?_, ?_, ?_⟩
      · intro xs hxs hne
        obtain rfl : v = PyVal.list xs := Option.some.inj (hv.symm.trans hxs)
        rw [hv1, mergeStatic_nonempty_list st xs hne]
      · intro v2 hv2 ht hl
        obtain rfl : v = v2 := Option.some.inj (hv.symm.trans hv2)
        rw [hv1, mergeStatic_truthy_scalar st v ht hl]
      · intro v2 hv2 hfal
        obtain rfl : v = v2 := Option.some.inj (hv.symm.trans hv2)
        rw [hv1, mergeStatic_falsy st v hfal]
    · intro st hst
      obtain ⟨v, hv, hv1⟩ := hment st hst
      refine ⟨?_, ?_, ?_⟩
      · intro xs hxs hne
        obtain rfl : v = PyVal.list xs := Option.some.inj (hv.symm.trans hxs)
        rw [hv1, mergeStatic_nonempty_list st xs hne]
      · intro v2 hv2 ht hl
        obtain rfl : v = v2 := Option.some.inj (hv.symm.trans hv2)
        rw [hv1, mergeStatic_truthy_scalar st v ht hl]
      · intro v2 hv2 hfal
        obtain rfl : v = v2 := Option.some.inj (hv.symm.trans hv2)
        rw [hv1, mergeStatic_falsy st v hfal]
  · intro st hm ht hg
    rw [patch_record_eq_fields, hm, ht]
    show patchField (some st) "tags" r = Except.error PyErr.attributeError
    exact patchField_some_absent st "tags" r hg
  · intro st hm hg
    rw [patch_record_eq_fields, hm]
    show (match patchField (some st) "mentions" r with
          | Except.error e => Except.error e
          | Except.ok r2 => patchField f.tags "tags" r2)
        = Except.error PyErr.attributeError
    rw [patchField_some_absent st "mentions" r hg]

/-- Claim C4 counterexample: with static tags `["b"]` and a record whose
tags attribute is absent, `patch_record` raises AttributeError instead
of assigning the static sequence to the record. -/
theorem patch_absent_tags_counterexample :
    BaseDatadogFormatter.patch_record fTagsB rBare
      = Except.error PyErr.attributeError
    ∧ BaseDatadogFormatter.patch_record fTagsB rBare
      ≠ Except.ok (rBare.setattr "tags" (PyVal.list [PyAtom.str "b"])) := by
  have h0 : BaseDatadogFormatter.patch_record fTagsB rBare
      = Except.error PyErr.attributeError := rfl
  refine ⟨h0, ?_⟩
  rw [h0]
  intro h
  exact Except.noConfusion h

/-- Witness for C4 (amended) at concrete merges: list-valued tags
`["a"]` merged with static `["b"]` give `["a","b"]`; a falsy (None)
value is replaced by `["b"]`; an absent attribute raises. -/
theorem patch_merge_rule_witness :
    (({ name := "n", msg := "m", levelno := 20,
        attrs := [("tags", PyVal.list [PyAtom.str "a", PyAtom.str "b"])] }
        : LogRecord).getattr "tags"
      = some (PyVal.list [PyAtom.str "a", PyAtom.str "b"]))
    ∧ (({ name := "n", msg := "m", levelno := 20,
          attrs := [("tags", PyVal.list [PyAtom.str "b"])] }
        : LogRecord).getattr "tags"
      = some (PyVal.list [PyAtom.str "b"]))
    ∧ BaseDatadogFormatter.patch_record fTagsB rBare
        = Except.error PyErr.attributeError := by
  refine ⟨?_, ?_, ?_⟩
  · exact ((((patch_merge_rule fTagsB
      { name := "n", msg := "m", levelno := 20,
        attrs := [("tags", PyVal.list [PyAtom.str "a"])] }
      { name := "n", msg := "m", levelno := 20,
        attrs := [("tags", PyVal.list [PyAtom.str "a", PyAtom.str "b"])] }).1
      rfl).1 [PyAtom.str "b"] rfl).1 [PyAtom.str "a"] rfl (by decide))
  · exact ((((patch_merge_rule fTagsB
      { name := "n", msg := "m", levelno := 20,
        attrs := [("tags", pyNone)] }
      { name := "n", msg := "m", levelno := 20,
        attrs := [("tags", PyVal.list [PyAtom.str "b"])] }).1
      rfl).1 [PyAtom.str "b"] rfl).2.2 pyNone rfl rfl)
  · exact (patch_merge_rule fTagsB rBare rBare).2.1 [PyAtom.str "b"] rfl rfl rfl

/-- Claim C6 counterexample: a record with no mentions attribute at all
makes EventMessage construction raise AttributeError (so emit reports an
error) instead of succeeding with the rendered text. -/
theorem event_absent_mentions_counterexample :
    EventMessage.init renderMsg rBare = Except.error PyErr.attributeError
    ∧ (EventMessage.init renderMsg rBare).isOk = false := ⟨rfl, rfl⟩

/-- Claim C6 (amended): the EventMessage's text equals the rendered
template when the record's mentions attribute is present with value
None, and equals the rendered text followed by a blank line and the
space-joined mentions when mentions is `[m1, m2]`; when the mentions
attribute is absent entirely, the construction raises AttributeError
(propagating to the handler boundary). -/
theorem event_text_construction (render : Render) (r : LogRecord) (t : String)
    (hr : render r = Except.ok t) :
    (r.getattr "mentions" = some pyNone →
      ∃ d, EventMessage.init render r = Except.ok d ∧ d.text = t)
    ∧ (∀ m1 m2, r.getattr "mentions" = some (pyStrs [m1, m2]) →
      ∃ d, EventMessage.init render r = Except.ok d
        ∧ d.text = String.intercalate "\n\n"
            [t, String.intercalate " " [m1, m2]])
    ∧ (r.getattr "mentions" = Option.none →
      EventMessage.init render r = Except.error PyErr.attributeError) := by
  refine ⟨?_, ?_, ?_⟩
  · intro hm
    rw [eventInit_eq_explicit]
    unfold eventInitExplicit
    rw [hr, hm]
    exact ⟨_, rfl, rfl⟩
  · intro m1 m2 hm
    rw [eventInit_eq_explicit]
    unfold eventInitExplicit
    rw [hr, hm]
    exact ⟨_, rfl, rfl⟩
  · intro hm
    rw [eventInit_eq_explicit]
    unfold eventInitExplicit
    rw [hr, hm]

/-- Witness for C6 (amended): mentions None gives the plain rendered
text; mentions `["m1","m2"]` gives the joined form. -/
theorem event_text_construction_witness :
    (∃ d, EventMessage.init renderMsg rBasic = Except.ok d ∧ d.text = "hello")
    ∧ (∃ d, EventMessage.init renderMsg rMentions2 = Except.ok d
        ∧ d.text = "hello\n\nm1 m2") := by
  constructor
  · exact (event_text_construction renderMsg rBasic "hello" rfl).1 rfl
  · obtain ⟨d, hd1, hd2⟩ :=
      (event_text_construction renderMsg rMentions2 "hello" rfl).2.1 "m1" "m2" rfl
    refine ⟨d, hd1, ?_⟩
    rw [hd2]
    rfl

/-- Claim C9 counterexample: with the kind-selector attribute named
"tags", a record whose tags value is the scalar "gauge" and static tags
`["x"]`, the source-order pipeline selects GaugeMessage (reading the
selector before the merge) while the merge-first pipeline of the claim
would select the default EventMessage. -/
theorem format_merge_order_counterexample :
    BaseDatadogFormatter.format fSelectorTags renderMsg rScalarGaugeTag
      = Except.ok (Message.gauge gaugeSelectorTags)
    ∧ formatMergeFirst fSelectorTags renderMsg rScalarGaugeTag
      = Except.ok (Message.event eventSelectorTags)
    ∧ BaseDatadogFormatter.format fSelectorTags renderMsg rScalarGaugeTag
      ≠ formatMergeFirst fSelectorTags renderMsg rScalarGaugeTag := by
  have hA : BaseDatadogFormatter.format fSelectorTags renderMsg rScalarGaugeTag
      = Except.ok (Message.gauge gaugeSelectorTags) := rfl
  have hB : formatMergeFirst fSelectorTags renderMsg rScalarGaugeTag
      = Except.ok (Message.event eventSelectorTags) := rfl
  refine ⟨hA, hB, ?_⟩
  rw [hA, hB]
  intro h
  exact Message.noConfusion (Except.ok.inj h)

/-- Claim C9 (amended): the static merge is applied after variant
selection and before message construction; whenever the configured
kind-selector attribute is not itself named "tags" or "mentions" (the
only attributes the merge writes), the pipeline coincides with the
merge-first pipeline, with the merged values visible to the chosen
variant's builder. -/
theorem format_merge_order (f : BaseDatadogFormatter) (render : Render)
    (r : LogRecord)
    (h1 : f.message_class_keyword ≠ "tags")
    (h2 : f.message_class_keyword ≠ "mentions") :
    BaseDatadogFormatter.format f render r = formatMergeFirst f render r := by
  unfold BaseDatadogFormatter.format formatMergeFirst
  cases hp : f.patch_record r with
  | error e => simp [Bind.bind, Except.bind, hp]
  | ok r1 =>
    simp only [Bind.bind, Except.bind, hp]
    have hres : f.resolve_message r1 = f.resolve_message r := by
      unfold BaseDatadogFormatter.resolve_message LogRecord.getattrD
      rw [(patch_ok_master f r r1 hp).1 f.message_class_keyword h2 h1]
    rw [hres]

/-- Witness for C9 (amended) under the default selector name. -/
theorem format_merge_order_witness :
    BaseDatadogFormatter.format fDefault renderMsg rBasic
      = formatMergeFirst fDefault renderMsg rBasic :=
  format_merge_order fDefault renderMsg rBasic (by decide) (by decide)

/-- Claim C8 (code bug): the static configuration is not immutable under
emit calls.  For a handler whose static tags is the list object `["b"]`
(at address 0) and a record whose tags attribute is None, the first
`patch_record` binds the record's tags to the handler's own list object
(aliasing), and a second `patch_record` on the same record object
extends that shared object in place, leaving the handler's static tags
list equal to `["b","b"]`. -/
theorem static_config_mutated_by_patches :
    storeAfterTwoPatches
      = Except.ok ({ heap := [[RVal.str "b", RVal.str "b"]] },
          { attrs := [("tags", RVal.ref 0)] })
    ∧ (match storeAfterTwoPatches with
       | Except.ok p => Store.read p.1 0
       | Except.error _ => []) = [RVal.str "b", RVal.str "b"] := ⟨rfl, rfl⟩

/-- Witness for C8: the final heap state after the two merges. -/
theorem static_config_mutated_by_patches_witness :
    storeAfterTwoPatches
      = Except.ok ({ heap := [[RVal.str "b", RVal.str "b"]] },
          { attrs := [("tags", RVal.ref 0)] }) :=
  static_config_mutated_by_patches.1
